import Mathlib

/-!
Verification development for the DeepInfra LLM adapter
(`libs/community/langchain_community/llms/deepinfra.py`).

The Python module is shallowly embedded:

* raw transport lines and response bodies are `List Char` (a byte line is
  text here; the `decode("utf-8")` step is the identity on this model);
* Python dictionaries are association lists in which the *last* binding of
  a key wins, mirroring `dict` update/`{**a, **b}` semantics;
* raised exceptions are values of `PyError`; fallible code returns
  `Except PyError _` or `Option _`;
* `json.loads` is embedded as the executable recursive-descent parser
  `jsonParse` below (JSON values `Json`, objects keep textual order,
  duplicate keys resolved last-wins as in CPython).
-/

/-- Python exception values raised by the adapter or by the operations it
uses; constructors distinguish the exception class. -/
inductive PyError where
  /-- a bare `Exception(msg)` raised by `_handle_status` / `_stream` -/
  | exception (msg : String)
  /-- `ValueError(msg)` (also covers `json.JSONDecodeError`) -/
  | valueError (msg : String)
  /-- `KeyError` from a missing mapping key -/
  | keyError (key : String)
  /-- `IndexError` from an out-of-range sequence index -/
  | indexError
  /-- `TypeError` from subscripting a non-subscriptable value -/
  | typeError (msg : String)
  /-- `AttributeError` from calling `.get` on a non-dict -/
  | attributeError (msg : String)
  /-- pydantic validation failure while constructing a chunk -/
  | validationError
deriving DecidableEq

/-- JSON values as produced by `json.loads`; numbers keep their raw
source text (the adapter never computes with them). -/
inductive Json where
  | null
  | bool (b : Bool)
  | num (raw : String)
  | str (s : String)
  | arr (elements : List Json)
  | obj (members : List (String × Json))

/-- Lookup in a Python dict modelled as an association list: the binding
added last wins, as for repeated keys in CPython dict construction. -/
def dlookup : List (String × Json) → String → Option Json
  | [], _ => none
  | (k', v) :: rest, k =>
    match dlookup rest k with
    | some w => some w
    | none => if k' = k then some v else none

/-- The left brace character (written by code point to keep it out of
string literals). -/
def lbrace : Char := Char.ofNat 123

/-- The right brace character. -/
def rbrace : Char := Char.ofNat 125

/-- JSON insignificant whitespace. -/
def isJsonWs (c : Char) : Bool := c = ' ' || c = '\t' || c = '\n' || c = '\r'

/-- Skip insignificant whitespace. -/
def skipWs (s : List Char) : List Char := s.dropWhile isJsonWs

/-- Value of a hexadecimal digit. -/
def hexVal (c : Char) : Option Nat :=
  if '0' ≤ c ∧ c ≤ '9' then some (c.toNat - '0'.toNat)
  else if 'a' ≤ c ∧ c ≤ 'f' then some (c.toNat - 'a'.toNat + 10)
  else if 'A' ≤ c ∧ c ≤ 'F' then some (c.toNat - 'A'.toNat + 10)
  else none

/-- Parse the body of a JSON string after the opening quote, returning the
decoded characters and the input after the closing quote. -/
def parseStringBody : Nat → List Char → Option (List Char × List Char)
  | 0, _ => none
  | _ + 1, [] => none
  | fuel + 1, c :: rest =>
    if c = '"' then some ([], rest)
    else if c = '\\' then
      match rest with
      | [] => none
      | e :: rest2 =>
        if e = '"' then (parseStringBody fuel rest2).map fun p => ('"' :: p.1, p.2)
        else if e = '\\' then (parseStringBody fuel rest2).map fun p => ('\\' :: p.1, p.2)
        else if e = '/' then (parseStringBody fuel rest2).map fun p => ('/' :: p.1, p.2)
        else if e = 'b' then (parseStringBody fuel rest2).map fun p => (Char.ofNat 8 :: p.1, p.2)
        else if e = 'f' then (parseStringBody fuel rest2).map fun p => (Char.ofNat 12 :: p.1, p.2)
        else if e = 'n' then (parseStringBody fuel rest2).map fun p => ('\n' :: p.1, p.2)
        else if e = 'r' then (parseStringBody fuel rest2).map fun p => ('\r' :: p.1, p.2)
        else if e = 't' then (parseStringBody fuel rest2).map fun p => ('\t' :: p.1, p.2)
        else if e = 'u' then
          match rest2 with
          | h1 :: h2 :: h3 :: h4 :: rest3 =>
            match hexVal h1, hexVal h2, hexVal h3, hexVal h4 with
            | some a, some b, some c2, some d =>
              (parseStringBody fuel rest3).map fun p =>
                (Char.ofNat (((a * 16 + b) * 16 + c2) * 16 + d) :: p.1, p.2)
            | _, _, _, _ => none
          | _ => none
        else none
    else if c.toNat < 32 then none
    else (parseStringBody fuel rest).map fun p => (c :: p.1, p.2)

/-- Parse the integer part of a JSON number (after an optional sign):
either a single `0` or a nonzero digit followed by digits. -/
def parseIntDigits : List Char → Option (List Char × List Char)
  | [] => none
  | c :: rest =>
    if c = '0' then some (['0'], rest)
    else if c.isDigit then
      some (c :: rest.takeWhile Char.isDigit, rest.dropWhile Char.isDigit)
    else none

/-- Parse the optional fraction part of a JSON number. -/
def parseFrac : List Char → Option (List Char × List Char)
  | '.' :: rest =>
    match rest.takeWhile Char.isDigit with
    | [] => none
    | ds => some ('.' :: ds, rest.dropWhile Char.isDigit)
  | s => some ([], s)

/-- Parse the optional exponent part of a JSON number. -/
def parseExp : List Char → Option (List Char × List Char)
  | c :: rest =>
    if c = 'e' ∨ c = 'E' then
      let signed : List Char × List Char :=
        match rest with
        | s :: rest2 => if s = '+' ∨ s = '-' then ([s], rest2) else ([], rest)
        | [] => ([], [])
      match signed.2.takeWhile Char.isDigit with
      | [] => none
      | ds => some (c :: signed.1 ++ ds, signed.2.dropWhile Char.isDigit)
    else some ([], c :: rest)
  | [] => some ([], [])

/-- Parse a JSON number, returning its raw text and the rest of the input. -/
def parseNumber (s : List Char) : Option (List Char × List Char) :=
  let sign : List Char × List Char :=
    match s with
    | '-' :: rest => (['-'], rest)
    | _ => ([], s)
  match parseIntDigits sign.2 with
  | none => none
  | some (ip, r1) =>
    match parseFrac r1 with
    | none => none
    | some (fp, r2) =>
      match parseExp r2 with
      | none => none
      | some (ep, r3) => some (sign.1 ++ ip ++ fp ++ ep, r3)

mutual

/-- Parse one JSON value (fuelled recursive descent mirroring `json.loads`). -/
def parseValue : Nat → List Char → Option (Json × List Char)
  | 0, _ => none
  | fuel + 1, s =>
    match skipWs s with
    | [] => none
    | c :: rest =>
      if c = 'n' then
        match rest with
        | 'u' :: 'l' :: 'l' :: r => some (.null, r)
        | _ => none
      else if c = 't' then
        match rest with
        | 'r' :: 'u' :: 'e' :: r => some (.bool true, r)
        | _ => none
      else if c = 'f' then
        match rest with
        | 'a' :: 'l' :: 's' :: 'e' :: r => some (.bool false, r)
        | _ => none
      else if c = '"' then
        (parseStringBody (rest.length + 1) rest).map fun p => (.str (String.mk p.1), p.2)
      else if c = '[' then
        match skipWs rest with
        | ']' :: r => some (.arr [], r)
        | r => (parseElems fuel r).map fun p => (.arr p.1, p.2)
      else if c = lbrace then
        match skipWs rest with
        | [] => none
        | c2 :: r =>
          if c2 = rbrace then some (.obj [], r)
          else (parseMembers fuel (c2 :: r)).map fun p => (.obj p.1, p.2)
      else
        (parseNumber (c :: rest)).map fun p => (.num (String.mk p.1), p.2)

/-- Parse the elements of a nonempty JSON array up to `]`. -/
def parseElems : Nat → List Char → Option (List Json × List Char)
  | 0, _ => none
  | fuel + 1, s =>
    match parseValue fuel s with
    | none => none
    | some (v, r) =>
      match skipWs r with
      | ',' :: r2 => (parseElems fuel r2).map fun p => (v :: p.1, p.2)
      | ']' :: r2 => some ([v], r2)
      | _ => none

/-- Parse the members of a nonempty JSON object up to the closing brace. -/
def parseMembers : Nat → List Char → Option (List (String × Json) × List Char)
  | 0, _ => none
  | fuel + 1, s =>
    match skipWs s with
    | '"' :: r =>
      match parseStringBody (r.length + 1) r with
      | none => none
      | some (k, r2) =>
        match skipWs r2 with
        | ':' :: r3 =>
          match parseValue fuel r3 with
          | none => none
          | some (v, r4) =>
            match skipWs r4 with
            | [] => none
            | c5 :: r5 =>
              if c5 = ',' then (parseMembers fuel r5).map fun p => ((String.mk k, v) :: p.1, p.2)
              else if c5 = rbrace then some ([(String.mk k, v)], r5)
              else none
        | _ => none
    | _ => none

end

/-- Embedding of `json.loads` on a whole text: parse one value, allow
trailing whitespace, reject anything else left over. `none` is a
`json.JSONDecodeError` (malformed JSON). -/
def jsonParse (s : List Char) : Option Json :=
  match parseValue (s.length + 1) s with
  | some (v, r) => if (skipWs r).isEmpty then some v else none
  | none => none

/-- Sanity check: the parser on a token event line. -/
theorem jsonParse_token_check : jsonParse ("\x7b\"token\":\x7b\"text\":\"a\"\x7d\x7d".toList) =
    some (.obj [("token", .obj [("text", .str "a")])]) := rfl

/-- Sanity check: the parser rejects malformed JSON. -/
theorem jsonParse_malformed_check : jsonParse ("\x7bnot json".toList) = none := rfl

/-- Sanity check: the parser on arrays, numbers and null. -/
theorem jsonParse_array_check : jsonParse ("[1, 2.5e3, null]".toList) =
    some (.arr [.num "1", .num "2.5e3", .null]) := rfl

/-! ## Status classification (`DeepInfra._handle_status`) -/

/-- Tagged outcome of inspecting an HTTP status code, one tag per branch of
`_handle_status` (lines 86-103); each error tag carries the exact message
the source builds in that branch. -/
inductive Outcome where
  | Success
  | ServerError (msg : String)
  | Unauthorized (msg : String)
  | Forbidden (msg : String)
  | NotFound (msg : String)
  | RateLimited (msg : String)
  | InvalidPayload (msg : String)
  | UnexpectedStatus (msg : String)
deriving DecidableEq

/-- Direct translation of the `if/elif` chain of `_handle_status`:
which branch fires for a status code, and the message that branch
formats (`model_id` is the configured model identifier, `text` the
response body text). Note the 403 branch formats the same
"Unauthorized" message as the 401 branch, exactly as in the source. -/
def classify (model_id : String) (code : Int) (text : String) : Outcome :=
  if code ≥ 500 then .ServerError ("DeepInfra Server: Error " ++ text)
  else if code = 401 then .Unauthorized "DeepInfra Server: Unauthorized"
  else if code = 403 then .Forbidden "DeepInfra Server: Unauthorized"
  else if code = 404 then .NotFound ("DeepInfra Server: Model not found " ++ model_id)
  else if code = 429 then .RateLimited "DeepInfra Server: Rate limit exceeded"
  else if code ≥ 400 then .InvalidPayload ("DeepInfra received an invalid payload: " ++ text)
  else if code ≠ 200 then
    .UnexpectedStatus
      ("DeepInfra returned an unexpected response with status " ++ toString code ++ ": " ++ text)
  else .Success

/-- The exception each `_handle_status` branch raises: every error branch
raises a bare `Exception` except the other-4xx branch, which raises
`ValueError`; the 200 branch raises nothing. -/
def Outcome.toError : Outcome → Option PyError
  | .Success => none
  | .ServerError m => some (.exception m)
  | .Unauthorized m => some (.exception m)
  | .Forbidden m => some (.exception m)
  | .NotFound m => some (.exception m)
  | .RateLimited m => some (.exception m)
  | .InvalidPayload m => some (.valueError m)
  | .UnexpectedStatus m => some (.exception m)

/-- `_handle_status(code, text)`: returns `none` (no exception) on 200,
otherwise the raised exception. -/
def handle_status (model_id : String) (code : Int) (text : String) : Option PyError :=
  (classify model_id code text).toError

/-! ## Request body (`DeepInfra._body`) -/

/-- A Python dict as an ordered association list; lookups use `dlookup`
(last binding wins), so `a ++ b` has exactly the lookup behaviour of
`{**a, **b}`. -/
abbrev PyDict : Type := List (String × Json)

/-- `DeepInfra._body(prompt, kwargs)`: merges the configured
`model_kwargs` (`None` modelled as `[]`) with the call-time `kwargs`
(call-time wins), then builds the literal dict with key `"input"` first —
so a merged key `"input"` overrides the prompt, as in the source dict
display `{"input": prompt, **model_kwargs}`. -/
def body (model_kwargs : PyDict) (prompt : String) (kwargs : PyDict) : PyDict :=
  let merged : PyDict := model_kwargs ++ kwargs
  ([("input", Json.str prompt)] : List (String × Json)) ++ merged

/-- Request body built by `_call`/`_acall` (blocking modes): `stop` is
accepted but unused; `kwargs` is passed through to `_body` unchanged. -/
def call_body (model_kwargs : PyDict) (prompt : String) (stop : Option (List String))
    (kwargs : PyDict) : PyDict :=
  body model_kwargs prompt kwargs

/-- Request body built by `_stream`/`_astream` (streaming modes): `stop`
is accepted but unused; the source passes `{**kwargs, "stream": True}`. -/
def stream_body (model_kwargs : PyDict) (prompt : String) (stop : Option (List String))
    (kwargs : PyDict) : PyDict :=
  body model_kwargs prompt (kwargs ++ [("stream", Json.bool true)])

/-! ## Stream line decoder (`_parse_stream_helper`, `_parse_stream`) -/

/-- The `data:` marker. -/
def dataMarker : List Char := "data:".toList

/-- The `data: ` marker (with one space). -/
def dataMarkerSp : List Char := "data: ".toList

/-- The characters Python `bytes.strip()` removes. -/
def isPySpace (c : Char) : Bool :=
  c = ' ' || c = '\t' || c = '\n' || c = '\r' || c = Char.ofNat 11 || c = Char.ofNat 12

/-- Python `line.strip()`: drop leading and trailing whitespace. -/
def pyStrip (l : List Char) : List Char :=
  ((l.dropWhile isPySpace).reverse.dropWhile isPySpace).reverse

/-- The `[DONE]` termination sentinel. -/
def doneSentinel : List Char := "[DONE]".toList

/-- `_parse_stream_helper(line)` (lines 209-222): keep only nonempty
lines starting with `data:`; strip `data: ` if present, else `data:`;
drop the line whose stripped remainder strips to `[DONE]`; otherwise
yield the remainder (UTF-8 decoding is the identity in this model). -/
def parse_stream_helper (line : List Char) : Option (List Char) :=
  if line ≠ [] ∧ dataMarker.isPrefixOf line then
    let stripped :=
      if dataMarkerSp.isPrefixOf line then line.drop dataMarkerSp.length
      else line.drop dataMarker.length
    if pyStrip stripped = doneSentinel then none else some stripped
  else none

/-- `_parse_stream(rbody)`: yield the decoded payload of every raw line
that `_parse_stream_helper` does not discard (same loop in
`_parse_stream_async`). -/
def parse_stream (rbody : List (List Char)) : List (List Char) :=
  rbody.filterMap parse_stream_helper

/-- Sanity check: the decoder on a mixed line sequence. -/
theorem parse_stream_check : parse_stream
    [("data: \x7b\"a\":1\x7d".toList), ("".toList), (": comment".toList),
     ("data:x".toList), ("data: [DONE]".toList)] =
    [("\x7b\"a\":1\x7d".toList), ("x".toList)] := rfl

/-! ## SSE event interpreter (`_handle_sse_line`) -/

/-- Modelled from the spec: `GenerationChunk` (from `langchain_core.outputs`,
part of this repository but not under `src/`) — the token chunk yielded to
the caller, holding `text : Optional<string>`, absent when the server
emits a token event without text. -/
structure GenerationChunk where
  text : Option String
deriving DecidableEq

/-- Python `obj.get(key, default)`: `AttributeError` unless `obj` is a
dict, otherwise the key's value or the default. -/
def pyGetD (j : Json) (k : String) (dflt : Json) : Except PyError Json :=
  match j with
  | .obj kvs => .ok ((dlookup kvs k).getD dflt)
  | _ => .error (.attributeError "get")

/-- Python `obj.get(key)`: `AttributeError` unless `obj` is a dict,
otherwise the key's value or `None`. -/
def pyGet (j : Json) (k : String) : Except PyError (Option Json) :=
  match j with
  | .obj kvs => .ok (dlookup kvs k)
  | _ => .error (.attributeError "get")

/-- Modelled from the spec: constructing a `GenerationChunk` from the
value of `obj.get("token", {}).get("text")`. Absent or JSON `null`
gives an absent text; a JSON string gives that text; any other value
fails validation (the field is `Optional<string>`). -/
def mkChunk : Option Json → Except PyError GenerationChunk
  | none => .ok ⟨none⟩
  | some .null => .ok ⟨none⟩
  | some (.str s) => .ok ⟨some s⟩
  | some _ => .error .validationError

/-- Body of the `try` block of `_handle_sse_line` (lines 226-230):
`json.loads` the line, look up `token` (defaulting to `{}`), look up
`text`, build the chunk. Each step can raise. -/
def handle_sse_line_body (line : List Char) : Except PyError GenerationChunk :=
  match jsonParse line with
  | none => .error (.valueError "Expecting value")
  | some obj =>
    match pyGetD obj "token" (.obj []) with
    | .error e => .error e
    | .ok tok =>
      match pyGet tok "text" with
      | .error e => .error e
      | .ok txt => mkChunk txt

/-- `_handle_sse_line(line)`: the whole body runs under
`try ... except Exception: return None`, so every failure becomes `none`. -/
def handle_sse_line (line : List Char) : Option GenerationChunk :=
  (handle_sse_line_body line).toOption

/-- Sanity check: the interpreter on a token event. -/
theorem handle_sse_line_token_check :
    handle_sse_line ("\x7b\"token\":\x7b\"text\":\"a\"\x7d\x7d".toList) =
    some ⟨some "a"⟩ := rfl

/-- Sanity check: the interpreter on malformed JSON. -/
theorem handle_sse_line_malformed_check : handle_sse_line ("\x7bnot json".toList) = none := rfl

/-- Sanity check: the interpreter on an empty object. -/
theorem handle_sse_line_empty_check : handle_sse_line ("\x7b\x7d".toList) = some ⟨none⟩ := rfl

/-! ## Blocking call (`DeepInfra._call`) -/

/-- An HTTP response as the adapter observes it: status code, body text,
and (for streaming) the body's raw lines. `response.json()` is
`jsonParse` of the body text; `response.iter_lines()` is `lines`. -/
structure DIResponse where
  status_code : Int
  text : List Char
  lines : List (List Char)

/-- Python `value[key]` with a string key: dict lookup (`KeyError` when
missing); `TypeError` on lists, strings and non-subscriptable values. -/
def pySubscriptStr : Json → String → Except PyError Json
  | .obj kvs, k =>
    match dlookup kvs k with
    | some v => .ok v
    | none => .error (.keyError k)
  | .arr _, _ => .error (.typeError "list indices must be integers")
  | .str _, _ => .error (.typeError "string indices must be integers")
  | .null, _ => .error (.typeError "object is not subscriptable")
  | .bool _, _ => .error (.typeError "object is not subscriptable")
  | .num _, _ => .error (.typeError "object is not subscriptable")

/-- Python `value[i]` with a non-negative integer: list/string indexing
(`IndexError` out of range), `KeyError` on dicts, `TypeError` otherwise. -/
def pySubscriptNat : Json → Nat → Except PyError Json
  | .arr xs, i =>
    match xs.get? i with
    | some v => .ok v
    | none => .error .indexError
  | .str s, i =>
    match s.toList.get? i with
    | some c => .ok (.str (String.mk [c]))
    | none => .error .indexError
  | .obj _, i => .error (.keyError (toString i))
  | .null, _ => .error (.typeError "object is not subscriptable")
  | .bool _, _ => .error (.typeError "object is not subscriptable")
  | .num _, _ => .error (.typeError "object is not subscriptable")

/-- The extraction `data["results"][0]["generated_text"]` from the parsed
blocking-response body. -/
def extract_generated_text (data : Json) : Except PyError Json :=
  match pySubscriptStr data "results" with
  | .error e => .error e
  | .ok results =>
    match pySubscriptNat results 0 with
    | .error e => .error e
    | .ok first => pySubscriptStr first "generated_text"

/-- `DeepInfra._call` after the transport step (lines 126-133): classify
the status (raising on non-200), parse the body as JSON, extract
`results[0]["generated_text"]` and return it (`_acall` is the same
logic). -/
def call (model_id : String) (resp : DIResponse) : Except PyError Json :=
  match handle_status model_id resp.status_code (String.mk resp.text) with
  | some e => .error e
  | none =>
    match jsonParse resp.text with
    | none => .error (.valueError "Expecting value")
    | some data => extract_generated_text data

/-- Errors of mapping/sequence lookup kind (`KeyError`, `IndexError`,
`TypeError`) — the kinds the extraction path can raise, disjoint from
what `_handle_status` raises. -/
def PyError.isLookupKind : PyError → Bool
  | .keyError _ => true
  | .indexError => true
  | .typeError _ => true
  | _ => false

/-! ## Streaming calls (`DeepInfra._stream`, `DeepInfra._astream`) -/

/-- Substring test, Python's `needle in hay`. -/
def containsSub (needle hay : List Char) : Bool :=
  hay.tails.any fun t => needle.isPrefixOf t

/-- The substring the streaming paths look for in the body text. -/
def errorNeedle : List Char := "error".toList

/-- One observable event of a streaming call: an observer
(`run_manager.on_llm_new_token`) invocation with a chunk's text, or a
chunk being yielded to the caller. Order in the trace is execution
order. -/
inductive StreamEvent where
  | observerCall (text : Option String)
  | yieldChunk (chunk : GenerationChunk)
deriving DecidableEq

/-- Chunks produced from a sequence of decoded data lines: each line
through the interpreter, `None` results skipped (`if chunk:` in the
loop of `_stream`/`_astream`). -/
def sseChunks (lines : List (List Char)) : List GenerationChunk :=
  lines.filterMap handle_sse_line

/-- The chunks a streaming call produces from the response body: raw lines
through the decoder, each decoded line through the interpreter. -/
def streamChunks (resp : DIResponse) : List GenerationChunk :=
  sseChunks (parse_stream resp.lines)

/-- The chunk loop of `_stream`/`_astream`: for each chunk, invoke the
observer (when present) with `chunk.text`, then yield the chunk. An
observer exception stops the loop and propagates; the trace keeps the
events that happened before it. -/
def streamLoop (obs : Option (Option String → Except PyError Unit)) :
    List GenerationChunk → List StreamEvent × Option PyError
  | [] => ([], none)
  | c :: rest =>
    match obs with
    | none =>
      let p := streamLoop none rest
      (.yieldChunk c :: p.1, p.2)
    | some f =>
      match f c.text with
      | .error e => ([.observerCall c.text], some e)
      | .ok _ =>
        let p := streamLoop (some f) rest
        (.observerCall c.text :: .yieldChunk c :: p.1, p.2)

/-- `DeepInfra._stream` after the transport step (lines 157-170): if the
body text contains the substring `error`, raise before anything else;
then classify the status (raising on non-200); then run the chunk loop.
The result is the event trace and the exception (if any) that ended the
call. -/
def stream (model_id : String) (resp : DIResponse)
    (obs : Option (Option String → Except PyError Unit)) :
    List StreamEvent × Option PyError :=
  if containsSub errorNeedle resp.text then
    ([], some (.exception ("DeepInfra Server: " ++ String.mk resp.text)))
  else
    match handle_status model_id resp.status_code (String.mk resp.text) with
    | some e => ([], some e)
    | none => streamLoop obs (streamChunks resp)

/-- `DeepInfra._astream` (lines 172-192): identical logic to `_stream`
for everything modelled here (the only textual difference — it passes
the unawaited `response.text` coroutine to `_handle_status`, which can
only perturb the message text of status-error branches — is not
modelled). -/
def astream (model_id : String) (resp : DIResponse)
    (obs : Option (Option String → Except PyError Unit)) :
    List StreamEvent × Option PyError :=
  if containsSub errorNeedle resp.text then
    ([], some (.exception ("DeepInfra Server: " ++ String.mk resp.text)))
  else
    match handle_status model_id resp.status_code (String.mk resp.text) with
    | some e => ([], some e)
    | none => streamLoop obs (streamChunks resp)

/-- The event trace of an error-free observed stream of chunks: one
observer call immediately followed by the yield, chunk by chunk. -/
def observerTrace (cs : List GenerationChunk) : List StreamEvent :=
  cs.flatMap fun c => [.observerCall c.text, .yieldChunk c]

/-! ## Helper lemmas -/

theorem dataMarkerSp_eq : dataMarkerSp = dataMarker ++ [' '] := rfl

theorem dlookup_cons (k' : String) (v : Json) (rest : PyDict) (k : String) :
    dlookup ((k', v) :: rest) k =
      match dlookup rest k with
      | some w => some w
      | none => if k' = k then some v else none := rfl

theorem dlookup_append (a b : PyDict) (k : String) :
    dlookup (a ++ b) k = (dlookup b k).orElse fun _ => dlookup a k := by
  induction a with
  | nil =>
    rw [List.nil_append]
    cases dlookup b k <;> rfl
  | cons kv rest ih =>
    obtain ⟨k', v⟩ := kv
    rw [List.cons_append, dlookup_cons, dlookup_cons, ih]
    cases dlookup b k <;> cases dlookup rest k <;> rfl

theorem pySubscriptStr_err_kind (j : Json) (k : String) (e : PyError)
    (h : pySubscriptStr j k = .error e) : e.isLookupKind = true := by
  cases j with
  | obj kvs =>
    simp only [pySubscriptStr] at h
    cases hd : dlookup kvs k with
    | some v => rw [hd] at h; exact absurd h (by simp)
    | none => rw [hd] at h; injection h with h1; rw [← h1]; rfl
  | null => injection h with h1; rw [← h1]; rfl
  | bool b => injection h with h1; rw [← h1]; rfl
  | num raw => injection h with h1; rw [← h1]; rfl
  | str s => injection h with h1; rw [← h1]; rfl
  | arr xs => injection h with h1; rw [← h1]; rfl

theorem pySubscriptNat_err_kind (j : Json) (i : Nat) (e : PyError)
    (h : pySubscriptNat j i = .error e) : e.isLookupKind = true := by
  cases j with
  | arr xs =>
    simp only [pySubscriptNat] at h
    cases hd : xs.get? i with
    | some v => rw [hd] at h; exact absurd h (by simp)
    | none => rw [hd] at h; injection h with h1; rw [← h1]; rfl
  | str s =>
    simp only [pySubscriptNat] at h
    cases hd : s.toList.get? i with
    | some c => rw [hd] at h; exact absurd h (by simp)
    | none => rw [hd] at h; injection h with h1; rw [← h1]; rfl
  | null => injection h with h1; rw [← h1]; rfl
  | bool b => injection h with h1; rw [← h1]; rfl
  | num raw => injection h with h1; rw [← h1]; rfl
  | obj kvs => injection h with h1; rw [← h1]; rfl

theorem extract_err_kind (d : Json) (e : PyError)
    (h : extract_generated_text d = .error e) : e.isLookupKind = true := by
  unfold extract_generated_text at h
  cases h1 : pySubscriptStr d "results" with
  | error e1 =>
    rw [h1] at h
    injection h with h2
    subst h2
    exact pySubscriptStr_err_kind _ _ _ h1
  | ok results =>
    rw [h1] at h
    have h' : (match pySubscriptNat results 0 with
        | Except.error e => (Except.error e : Except PyError Json)
        | Except.ok first => pySubscriptStr first "generated_text") = Except.error e := h
    cases h2 : pySubscriptNat results 0 with
    | error e2 =>
      rw [h2] at h'
      injection h' with h3
      subst h3
      exact pySubscriptNat_err_kind _ _ _ h2
    | ok first =>
      rw [h2] at h'
      exact pySubscriptStr_err_kind _ _ _ h'

theorem handle_status_err_kind (m t : String) (c : Int) (e : PyError)
    (h : handle_status m c t = some e) : e.isLookupKind = false := by
  unfold handle_status classify at h
  split_ifs at h <;>
    simp only [Outcome.toError, Option.some.injEq] at h <;>
    first
      | (rw [← h]; rfl)
      | (rw [h]; rfl)
      | exact Option.noConfusion h

theorem handle_status_200 (m t : String) : handle_status m 200 t = none := by
  unfold handle_status classify
  norm_num
  rfl

theorem streamLoop_ok (f : Option String → Except PyError Unit) (cs : List GenerationChunk)
    (h : ∀ c ∈ cs, f c.text = .ok ()) :
    streamLoop (some f) cs = (observerTrace cs, none) := by
  induction cs with
  | nil => rfl
  | cons c rest ih =>
    have hc : f c.text = .ok () := h c (List.mem_cons_self c rest)
    show (match f c.text with
      | .error e => ([StreamEvent.observerCall c.text], some e)
      | .ok _ =>
        ((.observerCall c.text) :: (.yieldChunk c) :: (streamLoop (some f) rest).1,
          (streamLoop (some f) rest).2)) = _
    rw [hc, ih fun c' hc' => h c' (List.mem_cons_of_mem c hc')]
    rfl

theorem streamLoop_err (f : Option String → Except PyError Unit)
    (pre : List GenerationChunk) (c : GenerationChunk) (cs : List GenerationChunk)
    (e : PyError) (hpre : ∀ c' ∈ pre, f c'.text = .ok ()) (hc : f c.text = .error e) :
    streamLoop (some f) (pre ++ c :: cs) =
      (observerTrace pre ++ [.observerCall c.text], some e) := by
  induction pre with
  | nil =>
    rw [List.nil_append]
    show (match f c.text with
      | .error e => ([StreamEvent.observerCall c.text], some e)
      | .ok _ =>
        ((.observerCall c.text) :: (.yieldChunk c) :: (streamLoop (some f) cs).1,
          (streamLoop (some f) cs).2)) = _
    rw [hc]
    rfl
  | cons p rest ih =>
    have hp : f p.text = .ok () := hpre p (List.mem_cons_self p rest)
    rw [List.cons_append]
    show (match f p.text with
      | .error e => ([StreamEvent.observerCall p.text], some e)
      | .ok _ =>
        ((.observerCall p.text) :: (.yieldChunk p) :: (streamLoop (some f) (rest ++ c :: cs)).1,
          (streamLoop (some f) (rest ++ c :: cs)).2)) = _
    rw [hp, ih fun c' hc' => hpre c' (List.mem_cons_of_mem p hc')]
    simp [observerTrace]

theorem psh_not_data (l : List Char) (h : l = [] ∨ dataMarker.isPrefixOf l = false) :
    parse_stream_helper l = none := by
  rcases h with h | h
  · subst h; rfl
  · unfold parse_stream_helper
    rw [if_neg]
    intro hc
    rw [h] at hc
    exact absurd hc.2 (by simp)

theorem psh_dataSp (r : List Char) :
    parse_stream_helper (dataMarkerSp ++ r) =
      if pyStrip r = doneSentinel then none else some r := by
  have hne : dataMarkerSp ++ r ≠ [] := by simp [dataMarkerSp]
  have hpre : dataMarker.isPrefixOf (dataMarkerSp ++ r) = true := by
    rw [List.isPrefixOf_iff_prefix, dataMarkerSp_eq, List.append_assoc]
    exact List.prefix_append _ _
  have hpreSp : dataMarkerSp.isPrefixOf (dataMarkerSp ++ r) = true := by
    rw [List.isPrefixOf_iff_prefix]
    exact List.prefix_append _ _
  unfold parse_stream_helper
  rw [if_pos ⟨hne, hpre⟩, if_pos hpreSp, List.drop_left]

theorem psh_dataNoSp (r : List Char) (h : r.head? ≠ some ' ') :
    parse_stream_helper (dataMarker ++ r) =
      if pyStrip r = doneSentinel then none else some r := by
  have hne : dataMarker ++ r ≠ [] := by simp [dataMarker]
  have hpre : dataMarker.isPrefixOf (dataMarker ++ r) = true := by
    rw [List.isPrefixOf_iff_prefix]
    exact List.prefix_append _ _
  have hnsp : ¬ (dataMarkerSp.isPrefixOf (dataMarker ++ r) = true) := by
    rw [List.isPrefixOf_iff_prefix, dataMarkerSp_eq, List.prefix_append_right_inj]
    intro hp
    cases r with
    | nil => simp at hp
    | cons a r' =>
      rw [List.cons_prefix_cons] at hp
      exact h (by rw [List.head?_cons, ← hp.1])
  unfold parse_stream_helper
  rw [if_pos ⟨hne, hpre⟩, if_neg hnsp, List.drop_left]

/-! ## Claim theorems -/

/-- C1: for every integer status code `c` and body text `t`, status
classification (`_handle_status`) is a pure total function with
first-match-wins precedence: `c ≥ 500` gives `ServerError`; `c = 401`
`Unauthorized`; `c = 403` `Forbidden`; `c = 404` `NotFound` with the
model identifier in the message; `c = 429` `RateLimited`; any other
`c` in 400-499 `InvalidPayload` with the body text; any other
`c ≠ 200` `UnexpectedStatus`; `c = 200` `Success`, i.e. exactly then no
error is raised. -/
theorem classify_precedence (m t : String) (c : Int) :
    (500 ≤ c → classify m c t = .ServerError ("DeepInfra Server: Error " ++ t)) ∧
    (c = 401 → classify m c t = .Unauthorized "DeepInfra Server: Unauthorized") ∧
    (c = 403 → classify m c t = .Forbidden "DeepInfra Server: Unauthorized") ∧
    (c = 404 → classify m c t = .NotFound ("DeepInfra Server: Model not found " ++ m)) ∧
    (c = 429 → classify m c t = .RateLimited "DeepInfra Server: Rate limit exceeded") ∧
    (400 ≤ c → c < 500 → c ≠ 401 → c ≠ 403 → c ≠ 404 → c ≠ 429 →
      classify m c t = .InvalidPayload ("DeepInfra received an invalid payload: " ++ t)) ∧
    (c < 400 → c ≠ 200 →
      classify m c t = .UnexpectedStatus
        ("DeepInfra returned an unexpected response with status " ++ toString c ++ ": " ++ t)) ∧
    (c = 200 → classify m c t = .Success) ∧
    (handle_status m c t = none ↔ c = 200) := by
  refine ⟨fun h => ?_, fun h => ?_, fun h => ?_, fun h => ?_, fun h => ?_,
    fun h1 h2 h3 h4 h5 h6 => ?_, fun h1 h2 => ?_, fun h => ?_, ?_⟩ <;>
    simp only [classify, handle_status, Outcome.toError] <;>
    split_ifs <;> simp_all <;> omega

/-- Witness for C1 at concrete inputs. -/
theorem classify_precedence_witness :
    classify "m" 404 "b" = .NotFound ("DeepInfra Server: Model not found " ++ "m") ∧
    classify "m" 422 "b" = .InvalidPayload ("DeepInfra received an invalid payload: " ++ "b") :=
  ⟨(classify_precedence "m" "b" 404).2.2.2.1 rfl,
   (classify_precedence "m" "b" 422).2.2.2.2.2.1 (by omega) (by omega) (by omega) (by omega)
     (by omega) (by omega)⟩

/-- C2: the stream line decoder yields a payload iff the raw line starts
with the data prefix and is not the termination sentinel: empty or
non-`data:` lines are discarded; a `data: ` prefix (with space) is
stripped, else the shorter `data:` prefix (both conventions accepted
identically); a remainder stripping to `[DONE]` yields nothing and
does not abort the sequence; and the three concrete lines
`data: {"token":{"text":"a"}}`, `data: {"token":{"text":"b"}}`,
`data: [DONE]` decode to exactly the two payload lines for "a" and
"b". -/
theorem decoder_spec (l r : List Char) (pre post : List (List Char)) :
    ((l = [] ∨ dataMarker.isPrefixOf l = false) → parse_stream_helper l = none) ∧
    (parse_stream_helper (dataMarkerSp ++ r) =
      if pyStrip r = doneSentinel then none else some r) ∧
    (r.head? ≠ some ' ' →
      parse_stream_helper (dataMarker ++ r) =
        if pyStrip r = doneSentinel then none else some r) ∧
    (parse_stream (pre ++ ("data: [DONE]".toList) :: post) =
      parse_stream pre ++ parse_stream post) ∧
    (parse_stream
        [("data: \x7b\"token\":\x7b\"text\":\"a\"\x7d\x7d".toList),
         ("data: \x7b\"token\":\x7b\"text\":\"b\"\x7d\x7d".toList),
         ("data: [DONE]".toList)] =
      [("\x7b\"token\":\x7b\"text\":\"a\"\x7d\x7d".toList),
       ("\x7b\"token\":\x7b\"text\":\"b\"\x7d\x7d".toList)]) := by
  refine ⟨psh_not_data l, psh_dataSp r, psh_dataNoSp r, ?_, rfl⟩
  unfold parse_stream
  rw [show pre ++ ("data: [DONE]".toList) :: post = pre ++ [("data: [DONE]".toList)] ++ post by
        simp,
    List.filterMap_append, List.filterMap_append,
    show List.filterMap parse_stream_helper [("data: [DONE]".toList)] = ([] : List (List Char))
      from rfl,
    List.append_nil]

/-- Witness for C2 at concrete inputs: a non-data line is discarded, and
the two prefix conventions strip to the same payload. -/
theorem decoder_spec_witness :
    parse_stream_helper (": comment".toList) = none ∧
    parse_stream_helper ("data: x".toList) = some ("x".toList) ∧
    parse_stream_helper ("data:x".toList) = some ("x".toList) := by
  refine ⟨(decoder_spec (": comment".toList) [] [] []).1 (Or.inr rfl), ?_, ?_⟩
  · have h := (decoder_spec [] ("x".toList) [] []).2.1
    rw [if_neg (by decide)] at h
    exact h
  · have h := (decoder_spec [] ("x".toList) [] []).2.2.1 (by decide)
    rw [if_neg (by decide)] at h
    exact h

/-- C10: for every non-sentinel data line the decoder yields the
remainder with its surrounding whitespace intact — stripping is applied
only to the copy compared against `[DONE]` — so `data:   [DONE]  ` is
still recognized as the sentinel while a payload's own whitespace
survives. -/
theorem decoder_whitespace (r : List Char) :
    (pyStrip r ≠ doneSentinel → parse_stream_helper (dataMarkerSp ++ r) = some r) ∧
    (pyStrip r = doneSentinel → parse_stream_helper (dataMarkerSp ++ r) = none) ∧
    (parse_stream_helper ("data:   [DONE]  ".toList) = none) ∧
    (parse_stream_helper ("data:  x ".toList) = some (" x ".toList)) := by
  refine ⟨fun h => ?_, fun h => ?_, rfl, rfl⟩
  · rw [psh_dataSp, if_neg h]
  · rw [psh_dataSp, if_pos h]

/-- Witness for C10 at a concrete payload with surrounding whitespace. -/
theorem decoder_whitespace_witness :
    parse_stream_helper (dataMarkerSp ++ ("  hi  ".toList)) = some ("  hi  ".toList) ∧
    parse_stream_helper (dataMarkerSp ++ (" [DONE] ".toList)) = none :=
  ⟨(decoder_whitespace ("  hi  ".toList)).1 (by decide),
   (decoder_whitespace (" [DONE] ".toList)).2.1 (by decide)⟩

/-- C4: a decoded data line that is not valid JSON yields no chunk rather
than raising, and the stream continues: removing such a line from the
front of a line sequence leaves the produced chunks unchanged, the
concrete malformed line `{not json` fails to parse and yields no chunk,
and a subsequent valid line still yields its chunk. -/
theorem interpreter_malformed (l : List Char) (rest : List (List Char)) :
    (jsonParse l = none → handle_sse_line l = none) ∧
    (handle_sse_line l = none → sseChunks (l :: rest) = sseChunks rest) ∧
    (jsonParse ("\x7bnot json".toList) = none) ∧
    (sseChunks [("\x7bnot json".toList), ("\x7b\"token\":\x7b\"text\":\"ok\"\x7d\x7d".toList)] =
      [⟨some "ok"⟩]) := by
  refine ⟨fun h => ?_, fun h => ?_, rfl, rfl⟩
  · unfold handle_sse_line handle_sse_line_body
    rw [h]
    rfl
  · unfold sseChunks
    rw [List.filterMap_cons_none h]

/-- Witness for C4 at the concrete malformed line. -/
theorem interpreter_malformed_witness :
    handle_sse_line ("\x7bnot json".toList) = none ∧
    sseChunks [("\x7bnot json".toList)] = sseChunks [] :=
  ⟨(interpreter_malformed ("\x7bnot json".toList) []).1 rfl,
   (interpreter_malformed ("\x7bnot json".toList) []).2.1
     ((interpreter_malformed ("\x7bnot json".toList) []).1 rfl)⟩

/-- C5: a decoded line that is a valid JSON object in which the `token`
object or its `text` field is absent yields a token chunk with absent
text — tolerated, neither an error nor "no chunk". -/
theorem interpreter_tolerant (l : List Char) (kvs tkvs : List (String × Json)) :
    (jsonParse l = some (.obj kvs) → dlookup kvs "token" = none →
      handle_sse_line l = some ⟨none⟩) ∧
    (jsonParse l = some (.obj kvs) → dlookup kvs "token" = some (.obj tkvs) →
      dlookup tkvs "text" = none → handle_sse_line l = some ⟨none⟩) ∧
    (handle_sse_line ("\x7b\x7d".toList) = some ⟨none⟩) ∧
    (handle_sse_line ("\x7b\"token\":\x7b\x7d\x7d".toList) = some ⟨none⟩) := by
  refine ⟨fun h1 h2 => ?_, fun h1 h2 h3 => ?_, rfl, rfl⟩
  · unfold handle_sse_line handle_sse_line_body
    rw [h1]
    simp [pyGetD, h2, pyGet, dlookup, mkChunk, Except.toOption]
  · unfold handle_sse_line handle_sse_line_body
    rw [h1]
    simp [pyGetD, h2, pyGet, h3, mkChunk, Except.toOption]

/-- Witness for C5 at the concrete lines `{}` and `{"token":{}}`. -/
theorem interpreter_tolerant_witness :
    handle_sse_line ("\x7b\x7d".toList) = some ⟨none⟩ ∧
    handle_sse_line ("\x7b\"token\":\x7b\x7d\x7d".toList) = some ⟨none⟩ :=
  ⟨(interpreter_tolerant ("\x7b\x7d".toList) [] []).1 rfl rfl,
   (interpreter_tolerant ("\x7b\"token\":\x7b\x7d\x7d".toList) [("token", .obj [])] []).2.1
     rfl rfl rfl⟩

/-- C9: the SSE event interpreter is total — every decoded line gives a
chunk or no chunk, never an aborted stream: processing decomposes over
any line decomposition, and the `try` block catches not only parse
failures but also later failures, shown by `[1,2]` (parses, then
`.get` fails) and by `{"token":{"text":5}}` (parses and extracts, then
chunk construction fails) — both yield `none`. -/
theorem interpreter_total (pre post : List (List Char)) (l : List Char) :
    (sseChunks (pre ++ l :: post) = sseChunks pre ++ sseChunks [l] ++ sseChunks post) ∧
    ((jsonParse ("[1,2]".toList)).isSome = true ∧
      handle_sse_line_body ("[1,2]".toList) = .error (.attributeError "get") ∧
      handle_sse_line ("[1,2]".toList) = none) ∧
    ((jsonParse ("\x7b\"token\":\x7b\"text\":5\x7d\x7d".toList)).isSome = true ∧
      handle_sse_line_body ("\x7b\"token\":\x7b\"text\":5\x7d\x7d".toList) =
        .error .validationError ∧
      handle_sse_line ("\x7b\"token\":\x7b\"text\":5\x7d\x7d".toList) = none) := by
  refine ⟨?_, ⟨rfl, rfl, rfl⟩, ⟨rfl, rfl, rfl⟩⟩
  unfold sseChunks
  rw [show pre ++ l :: post = pre ++ [l] ++ post by simp, List.filterMap_append,
    List.filterMap_append]

/-- C3: a streaming call (sync or async) whose response body text contains
the substring `error` fails with the upstream-embedded-error exception
before any chunk is yielded (empty event trace), and this happens
before status classification — the conclusion holds for every status
code, including 200. -/
theorem stream_embedded_error (m : String) (resp : DIResponse)
    (obs : Option (Option String → Except PyError Unit))
    (h : containsSub errorNeedle resp.text = true) :
    stream m resp obs =
      ([], some (.exception ("DeepInfra Server: " ++ String.mk resp.text))) ∧
    astream m resp obs =
      ([], some (.exception ("DeepInfra Server: " ++ String.mk resp.text))) := by
  refine ⟨?_, ?_⟩
  · unfold stream
    rw [if_pos h]
  · unfold astream
    rw [if_pos h]

/-- Witness for C3: a status-200 response embedding `"error":"bad model"`
fails before any chunk is yielded. -/
theorem stream_embedded_error_witness :
    stream "m" ⟨200, ("\x7b\"error\":\"bad model\"\x7d".toList), []⟩ none =
      ([], some (.exception
        ("DeepInfra Server: " ++ String.mk ("\x7b\"error\":\"bad model\"\x7d".toList)))) :=
  (stream_embedded_error "m" ⟨200, ("\x7b\"error\":\"bad model\"\x7d".toList), []⟩ none
    (by decide)).1

/-- C6: every blocking call whose response has status 200 returns exactly
the value at path `results[0].generated_text` of the JSON body — for
every body whose extraction at that path succeeds, the call returns
that extracted value (concretely, body
`{"results":[{"generated_text":"hello"}]}` returns `"hello"`) — and
when that path is absent or malformed it fails with the extraction
error, which is of lookup kind (`KeyError`/`IndexError`/`TypeError`) —
a kind `_handle_status` never raises. -/
theorem blocking_call (m : String) (resp : DIResponse) (data v : Json) (e : PyError) :
    (resp.status_code = 200 → jsonParse resp.text = some data →
      extract_generated_text data = .ok v → call m resp = .ok v) ∧
    (call m ⟨200, ("\x7b\"results\":[\x7b\"generated_text\":\"hello\"\x7d]\x7d".toList), []⟩ =
      .ok (.str "hello")) ∧
    (resp.status_code = 200 → jsonParse resp.text = some data →
      extract_generated_text data = .error e →
      call m resp = .error e ∧ e.isLookupKind = true) ∧
    (∀ (c : Int) (t : String) (e' : PyError),
      handle_status m c t = some e' → e'.isLookupKind = false) := by
  refine ⟨fun h200 hparse hext => ?_, rfl,
    fun h200 hparse hext => ⟨?_, extract_err_kind _ _ hext⟩,
    fun c t e' h => handle_status_err_kind m t c e' h⟩ <;>
  · unfold call
    rw [h200, handle_status_200, hparse]
    exact hext

/-- Witness for C6: the status-200 hello body returns exactly `"hello"`
through the general success clause, and a status-200 body `{}` lacks
the path, so the call fails with `KeyError("results")`, a lookup-kind
error. -/
theorem blocking_call_witness :
    call "m" ⟨200, ("\x7b\"results\":[\x7b\"generated_text\":\"hello\"\x7d]\x7d".toList), []⟩ =
      .ok (.str "hello") ∧
    call "m" ⟨200, ("\x7b\x7d".toList), []⟩ = .error (.keyError "results") ∧
    (PyError.keyError "results").isLookupKind = true :=
  ⟨(blocking_call "m"
      ⟨200, ("\x7b\"results\":[\x7b\"generated_text\":\"hello\"\x7d]\x7d".toList), []⟩
      (.obj [("results", .arr [.obj [("generated_text", .str "hello")]])])
      (.str "hello") .indexError).1 rfl rfl rfl,
   (blocking_call "m" ⟨200, ("\x7b\x7d".toList), []⟩ (.obj []) Json.null
      (.keyError "results")).2.2.1 rfl rfl rfl⟩

/-- Counterexample to C7 as stated: a call-time override whose key is
literally `input` wins over the prompt, because the source builds
`{"input": prompt, **merged}` with the merged parameters spread last —
so the body's `input` is not the prompt for this call. -/
theorem body_input_override_counterexample :
    dlookup (call_body [] "p" none [("input", Json.str "x")]) "input" ≠
      some (Json.str "p") := by
  intro h
  rw [show dlookup (call_body [] "p" none [("input", Json.str "x")]) "input" =
      some (Json.str "x") from rfl] at h
  injection h with h1
  injection h1 with h2
  exact absurd h2 (by decide)

/-- C7 (amended): the outbound body is the merge of configured parameters
with call-time overrides where call-time keys win, with `input` set to
the prompt unless the merged parameters themselves supply an `input`
key (which then wins over the prompt); `stream=true` is added only in
the streaming modes (and wins over any merged `stream` key), and the
`stop` argument is accepted but never transmitted in the body. -/
theorem body_merge_amended (mk kwargs : PyDict) (p : String)
    (stop stop' : Option (List String)) (k : String) :
    (dlookup (body mk p kwargs) k =
      if k = "input" then some ((dlookup (mk ++ kwargs) "input").getD (Json.str p))
      else dlookup (mk ++ kwargs) k) ∧
    (dlookup (mk ++ kwargs) k = (dlookup kwargs k).orElse fun _ => dlookup mk k) ∧
    (call_body mk p stop kwargs = call_body mk p stop' kwargs) ∧
    (stream_body mk p stop kwargs = stream_body mk p stop' kwargs) ∧
    (dlookup (stream_body mk p stop kwargs) "stream" = some (Json.bool true)) ∧
    (call_body mk p stop kwargs = body mk p kwargs) := by
  refine ⟨?_, dlookup_append mk kwargs k, rfl, rfl, ?_, rfl⟩
  · show dlookup (("input", Json.str p) :: (mk ++ kwargs)) k = _
    rw [dlookup_cons]
    by_cases hk : k = "input"
    · subst hk
      rw [if_pos rfl]
      cases hm : dlookup (mk ++ kwargs) "input" with
      | some w => rfl
      | none => rw [if_pos rfl]; rfl
    · rw [if_neg hk]
      cases hm : dlookup (mk ++ kwargs) k with
      | some w => rfl
      | none => rw [if_neg fun h => hk h.symm]
  · show dlookup (("input", Json.str p) :: (mk ++ (kwargs ++ [("stream", Json.bool true)])))
        "stream" = _
    rw [dlookup_cons, dlookup_append, dlookup_append]
    rfl

/-- C8: for a streaming call with an observer whose response passes the
embedded-error and status checks, the event trace is exactly one
observer invocation with the chunk's text immediately before each
chunk's yield — so N chunks mean exactly N invocations, each preceding
delivery — and an exception raised by the observer at any position
propagates: the call ends with that error, the failing chunk is never
yielded. -/
theorem observer_invocation (m : String) (resp : DIResponse)
    (f : Option String → Except PyError Unit)
    (hne : containsSub errorNeedle resp.text = false)
    (hok : handle_status m resp.status_code (String.mk resp.text) = none) :
    ((∀ c ∈ streamChunks resp, f c.text = .ok ()) →
      stream m resp (some f) = (observerTrace (streamChunks resp), none)) ∧
    (∀ (pre : List GenerationChunk) (c : GenerationChunk) (cs : List GenerationChunk)
        (e : PyError),
      streamChunks resp = pre ++ c :: cs → (∀ c' ∈ pre, f c'.text = .ok ()) →
      f c.text = .error e →
      stream m resp (some f) = (observerTrace pre ++ [.observerCall c.text], some e)) := by
  have hstream : stream m resp (some f) = streamLoop (some f) (streamChunks resp) := by
    unfold stream
    rw [if_neg (by rw [hne]; exact Bool.false_ne_true), hok]
  exact ⟨fun h => by rw [hstream]; exact streamLoop_ok f _ h,
    fun pre c cs e hsplit hpre hc => by
      rw [hstream, hsplit]; exact streamLoop_err f pre c cs e hpre hc⟩

/-- Witness for C8: one streamed token with an always-succeeding observer
gives the trace observer-call-then-yield, and an observer that raises on
the first chunk ends the stream with its error before the yield. -/
theorem observer_invocation_witness :
    stream "m" ⟨200, ("ok".toList), [("data: \x7b\"token\":\x7b\"text\":\"a\"\x7d\x7d".toList)]⟩
        (some fun _ => .ok ()) =
      (observerTrace [⟨some "a"⟩], none) ∧
    stream "m" ⟨200, ("ok".toList), [("data: \x7b\"token\":\x7b\"text\":\"a\"\x7d\x7d".toList)]⟩
        (some fun _ => .error .validationError) =
      (observerTrace [] ++ [.observerCall (some "a")], some .validationError) :=
  ⟨(observer_invocation "m"
      ⟨200, ("ok".toList), [("data: \x7b\"token\":\x7b\"text\":\"a\"\x7d\x7d".toList)]⟩
      (fun _ => .ok ()) (by decide) (by decide)).1 (fun _ _ => rfl),
   (observer_invocation "m"
      ⟨200, ("ok".toList), [("data: \x7b\"token\":\x7b\"text\":\"a\"\x7d\x7d".toList)]⟩
      (fun _ => .error .validationError) (by decide) (by decide)).2
     [] ⟨some "a"⟩ [] .validationError rfl (fun c' hc' => absurd hc' (List.not_mem_nil c'))
     rfl⟩
